import Mathlib

/-!
Shallow embedding of the Tread project-planning dashboard
(construction_dashboard.py, demo_dashboard.py, run_demo.py).

Calendar dates are embedded as year/month/day triples; comparison of
pandas timestamps is embedded as comparison of the numeric code
year*10000 + month*100 + day, which agrees with timeline order on
valid dates.  Money amounts are rationals, tables are lists of records,
and the worksheet is a list of rows of cells.
-/

/-- Calendar date, as carried by the date columns of the job table. -/
structure Date where
  year : Nat
  month : Nat
  day : Nat
deriving DecidableEq, Repr

/-- Numeric code of a date; on valid dates its order is timeline order. -/
def Date.code (d : Date) : Nat := d.year * 10000 + d.month * 100 + d.day

/-- Gregorian leap-year rule, as used by the date library backing pandas. -/
def isLeapYear (y : Nat) : Bool :=
  (y % 4 == 0 && y % 100 != 0) || (y % 400 == 0)

/-- Number of days in a calendar month. -/
def daysInMonth (y m : Nat) : Nat :=
  if m = 2 then (if isLeapYear y then 29 else 28)
  else if m = 4 ∨ m = 6 ∨ m = 9 ∨ m = 11 then 30
  else 31

/-- First day of a month: `selected_month.replace(day=1)` in
`create_gantt_chart`. -/
def monthStart (y m : Nat) : Date := ⟨y, m, 1⟩

/-- Last day of a month:
`(month_start + relativedelta(months=1)) - datetime.timedelta(days=1)` in
`create_gantt_chart`. -/
def monthEnd (y m : Nat) : Date := ⟨y, m, daysInMonth y m⟩

/-- One row of the normalized job table (a row of the dataframe produced by
`load_data_from_sheet` / `load_demo_data`). -/
structure Job where
  jobName : String
  startDate : Date
  endDate : Date
  estimatedCost : ℚ
  estimatedDuration : Int
  status : String
  project : String
deriving DecidableEq, Repr

/-- The overlap mask of `create_gantt_chart`:
`(df['Start Date'] <= pd.Timestamp(month_end)) & (df['End Date'] >= pd.Timestamp(month_start))`. -/
def jobInMonthView (j : Job) (y m : Nat) : Bool :=
  decide (j.startDate.code ≤ (monthEnd y m).code) &&
  decide ((monthStart y m).code ≤ j.endDate.code)

/-- The month window filter of `create_gantt_chart`: `month_jobs = df[mask]`. -/
def create_gantt_month_jobs (df : List Job) (y m : Nat) : List Job :=
  df.filter (fun j => jobInMonthView j y m)

/-- The sample job spanning 2024-01-15 .. 2024-02-28 (first row of the
built-in sample data). -/
def sampleSpanJob : Job :=
  { jobName := "Foundation Work"
    startDate := ⟨2024, 1, 15⟩
    endDate := ⟨2024, 2, 28⟩
    estimatedCost := 50000
    estimatedDuration := 44
    status := "In Progress"
    project := "Downtown Office Building" }

theorem daysInMonth_bounds (y m : Nat) :
    28 ≤ daysInMonth y m ∧ daysInMonth y m ≤ 31 := by
  unfold daysInMonth
  split
  · split <;> omega
  · split <;> omega

/-- Claim C2: the month window filter returns exactly the jobs whose
`[start_date, end_date]` interval meets `[month_start, month_end]` under the
inclusive test `start <= month_end AND end >= month_start`; and the job
spanning 2024-01-15 .. 2024-02-28 is in the January 2024 and
February 2024 views and in no other month view. -/
theorem month_window_filter_spec (df : List Job) (y m : Nat) :
    (∀ j : Job, j ∈ create_gantt_month_jobs df y m ↔
      j ∈ df ∧ j.startDate.code ≤ (monthEnd y m).code ∧
        (monthStart y m).code ≤ j.endDate.code) ∧
    (∀ y2 m2 : Nat, 1 ≤ m2 → m2 ≤ 12 →
      (jobInMonthView sampleSpanJob y2 m2 = true ↔
        (y2 = 2024 ∧ m2 = 1) ∨ (y2 = 2024 ∧ m2 = 2))) := by
  constructor
  · intro j
    simp [create_gantt_month_jobs, List.mem_filter, jobInMonthView,
      Bool.and_eq_true, decide_eq_true_iff]
  · intro y2 m2 h1 h2
    obtain ⟨hdl, hdr⟩ := daysInMonth_bounds y2 m2
    simp only [jobInMonthView, monthStart, monthEnd, Date.code, sampleSpanJob,
      Bool.and_eq_true, decide_eq_true_iff]
    omega

/-- Claim C2 witness: the filter characterization and the concrete
month-membership facts evaluated at January 2024. -/
theorem month_window_filter_spec_witness :
    (sampleSpanJob ∈ create_gantt_month_jobs [sampleSpanJob] 2024 1 ↔
      sampleSpanJob ∈ [sampleSpanJob] ∧
        sampleSpanJob.startDate.code ≤ (monthEnd 2024 1).code ∧
        (monthStart 2024 1).code ≤ sampleSpanJob.endDate.code) ∧
    (jobInMonthView sampleSpanJob 2024 3 = true ↔
      (2024 = 2024 ∧ 3 = 1) ∨ (2024 = 2024 ∧ 3 = 2)) :=
  ⟨(month_window_filter_spec [sampleSpanJob] 2024 1).1 sampleSpanJob,
   (month_window_filter_spec [sampleSpanJob] 2024 1).2 2024 3
     (by decide) (by decide)⟩

/-- One raw fetched row after pandas type coercion in `load_data_from_sheet`:
an `Option` field is `none` when `pd.to_datetime(..., errors="coerce")` or
`pd.to_numeric(..., errors="coerce")` failed to parse the cell (NaT/NaN), or,
for `status`, when the cell was missing (NaN). -/
structure RawJob where
  jobName : String
  startDate : Option Date
  endDate : Option Date
  estimatedCost : Option ℚ
  estimatedDuration : Option Int
  status : Option String
deriving DecidableEq, Repr

/-- Status defaulting of `load_data_from_sheet`:
`df['Status'].fillna('Planned')` followed by `.replace('', 'Planned')`. -/
def fillStatus (r : RawJob) : RawJob :=
  { r with status :=
      match r.status with
      | none => some "Planned"
      | some s => if s = "" then some "Planned" else some s }

/-- The drop condition of
`df.dropna(subset=['Start Date', 'End Date', 'Estimated Cost'])`: a row is
kept exactly when those three coerced fields are present. -/
def rowKept (r : RawJob) : Bool :=
  r.startDate.isSome && r.endDate.isSome && r.estimatedCost.isSome

/-- The cleaning pipeline of `load_data_from_sheet` after the raw fetch:
coerce types (encoded in the `Option` fields of `RawJob`), fill empty or
missing status with Planned, then drop rows with missing start date,
end date, or estimated cost. -/
def load_data_from_sheet (raws : List RawJob) : List RawJob :=
  (raws.map fillStatus).filter rowKept

theorem rowKept_fillStatus (r : RawJob) : rowKept (fillStatus r) = rowKept r := rfl

/-- Claim C3: a row whose start date, end date, or estimated cost failed to
parse is absent from the normalized table; a row with empty or missing status
gets status Planned; all other rows and fields pass through unchanged. -/
theorem normalization_spec (raws : List RawJob) :
    (∀ out : RawJob, out ∈ load_data_from_sheet raws ↔
      ∃ r ∈ raws, rowKept r = true ∧ out = fillStatus r) ∧
    (∀ r : RawJob, (r.status = none ∨ r.status = some "") →
      (fillStatus r).status = some "Planned") ∧
    (∀ r : RawJob, ∀ s : String, r.status = some s → s ≠ "" → fillStatus r = r) ∧
    (∀ r : RawJob, (fillStatus r).jobName = r.jobName ∧
      (fillStatus r).startDate = r.startDate ∧
      (fillStatus r).endDate = r.endDate ∧
      (fillStatus r).estimatedCost = r.estimatedCost ∧
      (fillStatus r).estimatedDuration = r.estimatedDuration) := by
  refine ⟨?_, ?_, ?_, ?_⟩
  · intro out
    simp only [load_data_from_sheet, List.mem_filter, List.mem_map]
    constructor
    · rintro ⟨⟨r, hr, rfl⟩, hkept⟩
      exact ⟨r, hr, by simpa [rowKept_fillStatus] using hkept, rfl⟩
    · rintro ⟨r, hr, hkept, rfl⟩
      exact ⟨⟨r, hr, rfl⟩, by simpa [rowKept_fillStatus] using hkept⟩
  · rintro r (h | h) <;> simp [fillStatus, h]
  · intro r s hs hne
    cases r
    simp_all [fillStatus]
  · intro r
    simp [fillStatus]

/-- A raw row with an unparsable start date. -/
def rawBadDate : RawJob :=
  { jobName := "Bad Row", startDate := none, endDate := some ⟨2024, 2, 1⟩,
    estimatedCost := some 100, estimatedDuration := some 10, status := some "Planned" }

/-- A raw row with a missing status field. -/
def rawNoStatus : RawJob :=
  { jobName := "Framing", startDate := some ⟨2024, 3, 1⟩,
    endDate := some ⟨2024, 4, 15⟩, estimatedCost := some 75000,
    estimatedDuration := some 45, status := none }

/-- Claim C3 witness: on a concrete table, the bad-date row is absent from
the output and the missing-status row comes out with status Planned. -/
theorem normalization_spec_witness :
    (rawBadDate ∈ load_data_from_sheet [rawBadDate, rawNoStatus] ↔
      ∃ r ∈ [rawBadDate, rawNoStatus], rowKept r = true ∧ rawBadDate = fillStatus r) ∧
    (fillStatus rawNoStatus).status = some "Planned" :=
  ⟨(normalization_spec [rawBadDate, rawNoStatus]).1 rawBadDate,
   (normalization_spec [rawBadDate, rawNoStatus]).2.1 rawNoStatus (Or.inl rfl)⟩

/-- Zero-padded two-digit field of `strftime`. -/
def pad2 (n : Nat) : String := if n < 10 then "0" ++ toString n else toString n

/-- Zero-padded four-digit year field of `strftime` (`%Y`). -/
def pad4 (n : Nat) : String :=
  if n < 10 then "000" ++ toString n
  else if n < 100 then "00" ++ toString n
  else if n < 1000 then "0" ++ toString n
  else toString n

/-- `strftime('%Y%m%d')`. -/
def fmtCompact (d : Date) : String := pad4 d.year ++ pad2 d.month ++ pad2 d.day

/-- `strftime('%Y-%m-%d')`, the YYYY-MM-DD serialization of dates. -/
def fmtDash (d : Date) : String :=
  pad4 d.year ++ "-" ++ pad2 d.month ++ "-" ++ pad2 d.day

/-- The derived completion key
`f"{job['Job Name']}_{job['Start Date'].strftime('%Y%m%d')}"`. -/
def jobKey (j : Job) : String := j.jobName ++ "_" ++ fmtCompact j.startDate

/-- The project filter `df[df['Project'] == selected_project]` used by
`create_budget_analysis` and `create_project_budget_pie_chart`. -/
def projectJobs (df : List Job) (p : String) : List Job :=
  df.filter (fun j => j.project = p)

/-- `project_spend = project_jobs['Estimated Cost'].sum()`. -/
def projectSpend (df : List Job) (p : String) : ℚ :=
  ((projectJobs df p).map Job.estimatedCost).sum

/-- The KPI dictionary returned by `create_budget_analysis`. -/
structure Kpis where
  total_spend_to_date : ℚ
  budget_used_pct : ℚ
  remaining_budget : ℚ
  jobs_in_progress : Nat
  jobs_complete : Nat
deriving DecidableEq, Repr

/-- The KPI computation of `create_budget_analysis` (identical in
construction_dashboard.py and demo_dashboard.py): filter the table to the
selected project, sum estimated costs, derive percentage and remainder, and
count the jobs whose derived key lies in the completion set. -/
def create_budget_analysis (df : List Job) (p : String) (budget : ℚ)
    (completed : List String) : Kpis :=
  let spend := projectSpend df p
  let totalJobs := (projectJobs df p).length
  let jobsComplete := (projectJobs df p).countP (fun j => decide (jobKey j ∈ completed))
  { total_spend_to_date := spend
    budget_used_pct := spend / budget * 100
    remaining_budget := budget - spend
    jobs_in_progress := totalJobs - jobsComplete
    jobs_complete := jobsComplete }

/-- The second sample job: Framing, 75000, same project as `sampleSpanJob`. -/
def framingJob : Job :=
  { jobName := "Framing"
    startDate := ⟨2024, 3, 1⟩
    endDate := ⟨2024, 4, 15⟩
    estimatedCost := 75000
    estimatedDuration := 45
    status := "Planned"
    project := "Downtown Office Building" }

/-- Claim C4: the KPI derivation returns
`budget_used_pct = spend / budget * 100` and
`remaining_budget = budget - spend` with no clamping; in particular jobs
costing 50000 and 75000 against budget 500000 give `budget_used_pct = 25`
and `remaining_budget = 375000`, and against budget 100000 the remaining
budget is the negative value -25000. -/
theorem kpi_derivation_spec :
    (∀ (df : List Job) (p : String) (budget : ℚ) (completed : List String),
      (create_budget_analysis df p budget completed).total_spend_to_date =
        projectSpend df p ∧
      (create_budget_analysis df p budget completed).budget_used_pct =
        projectSpend df p / budget * 100 ∧
      (create_budget_analysis df p budget completed).remaining_budget =
        budget - projectSpend df p) ∧
    (create_budget_analysis [sampleSpanJob, framingJob]
        "Downtown Office Building" 500000 []).budget_used_pct = 25 ∧
    (create_budget_analysis [sampleSpanJob, framingJob]
        "Downtown Office Building" 500000 []).remaining_budget = 375000 ∧
    (create_budget_analysis [sampleSpanJob, framingJob]
        "Downtown Office Building" 100000 []).remaining_budget = -25000 := by
  refine ⟨fun df p budget completed => ⟨rfl, rfl, rfl⟩, ?_, ?_, ?_⟩ <;>
    norm_num [create_budget_analysis, projectSpend, projectJobs,
      sampleSpanJob, framingJob]

/-- Claim C10: the completion counts of `create_budget_analysis` satisfy
`jobs_complete + jobs_in_progress = number of jobs of the selected project`,
and `jobs_complete` is exactly the number of project jobs whose derived key
is in the completion set; both counts are natural numbers, hence
non-negative. -/
theorem kpi_completion_counts (df : List Job) (p : String) (budget : ℚ)
    (completed : List String) :
    (create_budget_analysis df p budget completed).jobs_complete +
        (create_budget_analysis df p budget completed).jobs_in_progress =
      (projectJobs df p).length ∧
    (create_budget_analysis df p budget completed).jobs_complete =
      (projectJobs df p).countP (fun j => decide (jobKey j ∈ completed)) := by
  refine ⟨?_, rfl⟩
  have hle := List.countP_le_length (fun j => decide (jobKey j ∈ completed))
    (l := projectJobs df p)
  simp only [create_budget_analysis]
  omega

/-- The pie-chart slice values of `create_project_budget_pie_chart`: one
slice per project job at its estimated cost, then a remaining-budget slice
at `max(0, total_budget - total_job_costs)` appended only when positive. -/
def create_project_budget_pie_values (df : List Job) (p : String)
    (budget : ℚ) : List ℚ :=
  let remaining := max 0 (budget - projectSpend df p)
  ((projectJobs df p).map Job.estimatedCost) ++
    (if remaining > 0 then [remaining] else [])

/-- Claim C5: for a non-empty project, the pie chart is one slice per job at
its cost plus a remaining-budget slice at `max(0, budget - total_job_cost)`
omitted when zero or negative, so the slice values sum to
`max(total_job_cost, budget)` when `total_job_cost <= budget` and to
`total_job_cost` otherwise. -/
theorem pie_slice_sum_spec (df : List Job) (p : String) (budget : ℚ)
    (h : projectJobs df p ≠ []) :
    (budget ≤ projectSpend df p →
      create_project_budget_pie_values df p budget =
        (projectJobs df p).map Job.estimatedCost) ∧
    (projectSpend df p < budget →
      create_project_budget_pie_values df p budget =
        (projectJobs df p).map Job.estimatedCost ++ [budget - projectSpend df p]) ∧
    (create_project_budget_pie_values df p budget).sum =
      (if projectSpend df p ≤ budget then max (projectSpend df p) budget
        else projectSpend df p) := by
  have hval : create_project_budget_pie_values df p budget =
      ((projectJobs df p).map Job.estimatedCost) ++
        (if max 0 (budget - projectSpend df p) > 0
          then [max 0 (budget - projectSpend df p)] else []) := rfl
  have hsum : ((projectJobs df p).map Job.estimatedCost).sum =
      projectSpend df p := rfl
  by_cases hc : projectSpend df p < budget
  · have hMax : max 0 (budget - projectSpend df p) = budget - projectSpend df p :=
      max_eq_right (by linarith)
    have hval2 : create_project_budget_pie_values df p budget =
        ((projectJobs df p).map Job.estimatedCost) ++ [budget - projectSpend df p] := by
      rw [hval, hMax, if_pos (sub_pos.mpr hc)]
    refine ⟨fun hle => absurd hc (not_lt.mpr hle), fun _ => hval2, ?_⟩
    rw [hval2, List.sum_append, hsum, if_pos (le_of_lt hc),
      max_eq_right (le_of_lt hc)]
    simp
  · have hle : budget ≤ projectSpend df p := not_lt.mp hc
    have hMax : max 0 (budget - projectSpend df p) = 0 :=
      max_eq_left (by linarith)
    have hval2 : create_project_budget_pie_values df p budget =
        (projectJobs df p).map Job.estimatedCost := by
      rw [hval, hMax]
      simp
    refine ⟨fun _ => hval2, fun hlt => absurd hlt (not_lt.mpr hle), ?_⟩
    rw [hval2, hsum]
    split_ifs with hif
    · rw [max_eq_right hif]
      exact le_antisymm hif hle
    · rfl

/-- Claim C5 witness: the slice-sum identity evaluated on the concrete
one-job project with budget 500000. -/
theorem pie_slice_sum_spec_witness :
    (create_project_budget_pie_values [sampleSpanJob]
        "Downtown Office Building" 500000).sum =
      (if projectSpend [sampleSpanJob] "Downtown Office Building" ≤ 500000 then
        max (projectSpend [sampleSpanJob] "Downtown Office Building") 500000
        else projectSpend [sampleSpanJob] "Downtown Office Building") :=
  (pie_slice_sum_spec [sampleSpanJob] "Downtown Office Building" 500000
    (by simp [projectJobs, sampleSpanJob])).2.2

/-- One worksheet cell: text or a number, as written by gspread. -/
inductive Cell where
  | str (s : String)
  | num (q : ℚ)
deriving DecidableEq, Repr

/-- The `job_data` dictionary assembled by the add-job forms.  The project
field is present only in the inline form of `main` (construction
dashboard); `add_job_to_sheet` never writes it. -/
structure JobData where
  jobName : String
  startDate : Date
  endDate : Date
  estimatedCost : ℚ
  estimatedDuration : Int
  status : String
  project : Option String
deriving DecidableEq, Repr

/-- The `row_data` list built by `add_job_to_sheet`: name, the two dates
serialized with `strftime('%Y-%m-%d')`, cost, duration, status. -/
def jobRowData (j : JobData) : List Cell :=
  [Cell.str j.jobName, Cell.str (fmtDash j.startDate),
   Cell.str (fmtDash j.endDate), Cell.num j.estimatedCost,
   Cell.num (j.estimatedDuration : ℚ), Cell.str j.status]

/-- `add_job_to_sheet`: `worksheet.append_row(row_data)` appends one row at
the end of the worksheet. -/
def add_job_to_sheet (ws : List (List Cell)) (j : JobData) : List (List Cell) :=
  ws ++ [jobRowData j]

/-- Claim C6: append writes exactly one new row, leaves the existing rows in
place, the new row holds the record fields in the fixed column order
name, start date, end date, cost, duration, status with dates serialized as
YYYY-MM-DD text, and append is not idempotent: a repeated call with the same
record produces a duplicate row. -/
theorem append_row_spec (ws : List (List Cell)) (j : JobData) :
    (add_job_to_sheet ws j).length = ws.length + 1 ∧
    (add_job_to_sheet ws j).take ws.length = ws ∧
    (add_job_to_sheet ws j).drop ws.length = [jobRowData j] ∧
    jobRowData j = [Cell.str j.jobName, Cell.str (fmtDash j.startDate),
      Cell.str (fmtDash j.endDate), Cell.num j.estimatedCost,
      Cell.num (j.estimatedDuration : ℚ), Cell.str j.status] ∧
    fmtDash ⟨2024, 1, 15⟩ = "2024-01-15" ∧
    add_job_to_sheet (add_job_to_sheet ws j) j =
      ws ++ [jobRowData j, jobRowData j] ∧
    add_job_to_sheet (add_job_to_sheet ws j) j ≠ add_job_to_sheet ws j := by
  refine ⟨by simp [add_job_to_sheet], ?_, ?_, rfl, rfl, ?_, ?_⟩
  · rw [add_job_to_sheet, List.take_left]
  · rw [add_job_to_sheet, List.drop_left]
  · simp [add_job_to_sheet]
  · intro hEq
    have := congrArg List.length hEq
    simp [add_job_to_sheet] at this

/-- Python `str.strip()`: remove leading and trailing whitespace. -/
def pyStrip (s : String) : String :=
  String.mk (((s.toList.dropWhile Char.isWhitespace).reverse.dropWhile
    Char.isWhitespace).reverse)

/-- `validate_job_data` of construction_dashboard.py: collects one message
per violated rule, in source order. -/
def validate_job_data (jobName : String) (startDate endDate : Date)
    (cost : ℚ) (duration : Int) : List String :=
  (if pyStrip jobName = "" then ["Job name is required"] else []) ++
  (if endDate.code ≤ startDate.code then ["End date must be after start date"]
    else []) ++
  (if cost < 0 then ["Estimated cost must be non-negative"] else []) ++
  (if duration ≤ 0 then ["Estimated duration must be positive"] else [])

/-- Outcome of one form submission: the error messages shown and the
worksheet after the submission. -/
structure SubmitOutcome where
  errors : List String
  sheet : List (List Cell)
deriving DecidableEq, Repr

/-- The submit path of `display_add_job_form`: run `validate_job_data`; on
any error show the errors and skip the write, otherwise append the job. -/
def display_add_job_submit (ws : List (List Cell)) (jobName : String)
    (startDate endDate : Date) (cost : ℚ) (duration : Int) (status : String) :
    SubmitOutcome :=
  let errors := validate_job_data jobName startDate endDate cost duration
  if errors = [] then
    { errors := errors
      sheet := add_job_to_sheet ws
        { jobName := pyStrip jobName, startDate := startDate,
          endDate := endDate, estimatedCost := cost,
          estimatedDuration := duration, status := status, project := none } }
  else { errors := errors, sheet := ws }

/-- The submit path of the inline add-job form in `main` of
construction_dashboard.py (lines 1039-1058): requires a non-empty trimmed
name and a strictly positive cost, then writes whenever
`new_end_date >= new_start_date` (equality allowed), rejecting only
`end < start`. -/
def main_add_job_submit (ws : List (List Cell)) (jobName : String)
    (startDate endDate : Date) (cost : ℚ) (duration : Int)
    (status project : String) : SubmitOutcome :=
  if pyStrip jobName ≠ "" ∧ 0 < cost then
    if startDate.code ≤ endDate.code then
      { errors := []
        sheet := add_job_to_sheet ws
          { jobName := pyStrip jobName, startDate := startDate,
            endDate := endDate, estimatedCost := cost,
            estimatedDuration := duration, status := status,
            project := some project } }
    else { errors := ["End date must be on or after start date!"], sheet := ws }
  else { errors := ["Please fill in all fields with valid values!"], sheet := ws }

/-- Claim C1 counterexample: submitting start_date = end_date = 2024-01-15
with all other fields valid through the inline add-job form of `main`
reports no error and performs the write (one appended row), refuting the
claim that every add-job submission with equal dates is rejected with zero
writes. -/
theorem validation_gate_counterexample :
    (main_add_job_submit [] "Foundation Work" ⟨2024, 1, 15⟩ ⟨2024, 1, 15⟩
      1000 30 "Planned" "Downtown Office Building").errors = [] ∧
    (main_add_job_submit [] "Foundation Work" ⟨2024, 1, 15⟩ ⟨2024, 1, 15⟩
      1000 30 "Planned" "Downtown Office Building").sheet.length = 1 := by
  have hname : pyStrip "Foundation Work" ≠ "" := by decide
  constructor <;> norm_num [main_add_job_submit, add_job_to_sheet, hname]

/-- Claim C1 amended: through the add-job form that validates via
`validate_job_data` (`display_add_job_form`), a submission with
`start_date == end_date` yields the validation error "End date must be after
start date" and no write (the sheet is unchanged); the inline add-job form
of `main`, whose check is `end >= start`, accepts equal dates and performs
the write. -/
theorem validation_gate_amended (ws : List (List Cell)) (jobName : String)
    (d : Date) (cost : ℚ) (duration : Int) (status : String) :
    "End date must be after start date" ∈
      validate_job_data jobName d d cost duration ∧
    (display_add_job_submit ws jobName d d cost duration status).errors ≠ [] ∧
    (display_add_job_submit ws jobName d d cost duration status).sheet = ws ∧
    (∀ project : String, pyStrip jobName ≠ "" → 0 < cost →
      (main_add_job_submit ws jobName d d cost duration status project).sheet =
        ws ++ [jobRowData { jobName := pyStrip jobName, startDate := d,
                            endDate := d, estimatedCost := cost,
                            estimatedDuration := duration, status := status,
                            project := some project }]) := by
  have hmem : "End date must be after start date" ∈
      validate_job_data jobName d d cost duration := by
    simp [validate_job_data]
  have hne : validate_job_data jobName d d cost duration ≠ [] :=
    List.ne_nil_of_mem hmem
  refine ⟨hmem, ?_, ?_, ?_⟩
  · simp [display_add_job_submit, hne]
  · simp [display_add_job_submit, hne]
  · intro project hname hcost
    simp [main_add_job_submit, hname, hcost, add_job_to_sheet]

/-- Claim C1 amended witness: the amended statements evaluated at
2024-01-15 with name Foundation Work, cost 1000, duration 30. -/
theorem validation_gate_amended_witness :
    "End date must be after start date" ∈
      validate_job_data "Foundation Work" ⟨2024, 1, 15⟩ ⟨2024, 1, 15⟩ 1000 30 ∧
    (main_add_job_submit [] "Foundation Work" ⟨2024, 1, 15⟩ ⟨2024, 1, 15⟩
        1000 30 "Planned" "P").sheet =
      [] ++ [jobRowData { jobName := pyStrip "Foundation Work",
                          startDate := ⟨2024, 1, 15⟩, endDate := ⟨2024, 1, 15⟩,
                          estimatedCost := 1000, estimatedDuration := 30,
                          status := "Planned", project := some "P" }] :=
  ⟨(validation_gate_amended [] "Foundation Work" ⟨2024, 1, 15⟩
      1000 30 "Planned").1,
   (validation_gate_amended [] "Foundation Work" ⟨2024, 1, 15⟩
      1000 30 "Planned").2.2.2 "P" (by decide) (by norm_num)⟩

/-- Claim C9 counterexample: a zero-cost submission with all other fields
valid through the inline add-job form of `main` is rejected (the form
requires `new_estimated_cost > 0`) and not written, refuting the claim that
every zero-cost submission passes validation and is written. -/
theorem zero_cost_counterexample :
    (main_add_job_submit [] "Foundation Work" ⟨2024, 1, 1⟩ ⟨2024, 2, 1⟩
      0 30 "Planned" "Downtown Office Building").errors ≠ [] ∧
    (main_add_job_submit [] "Foundation Work" ⟨2024, 1, 1⟩ ⟨2024, 2, 1⟩
      0 30 "Planned" "Downtown Office Building").sheet.length = 0 := by
  constructor <;> norm_num [main_add_job_submit]

/-- Claim C9 amended: in `validate_job_data` only a negative cost is a
violation, so through `display_add_job_form` a zero-cost job with all other
fields valid passes validation and is appended to the store; the inline
add-job form of `main` additionally requires a strictly positive cost and
rejects zero without writing. -/
theorem zero_cost_amended (ws : List (List Cell)) (jobName : String)
    (startDate endDate : Date) (duration : Int) (status : String)
    (hname : pyStrip jobName ≠ "") (hdate : startDate.code < endDate.code)
    (hdur : 0 < duration) :
    validate_job_data jobName startDate endDate 0 duration = [] ∧
    (display_add_job_submit ws jobName startDate endDate 0 duration
        status).sheet =
      ws ++ [jobRowData { jobName := pyStrip jobName, startDate := startDate,
                          endDate := endDate, estimatedCost := 0,
                          estimatedDuration := duration, status := status,
                          project := none }] ∧
    (∀ cost : ℚ, ("Estimated cost must be non-negative" ∈
        validate_job_data jobName startDate endDate cost duration) ↔
      cost < 0) ∧
    (∀ project : String,
      (main_add_job_submit ws jobName startDate endDate 0 duration status
          project).sheet = ws ∧
      (main_add_job_submit ws jobName startDate endDate 0 duration status
          project).errors ≠ []) := by
  have hnotle : ¬ endDate.code ≤ startDate.code := not_le.mpr hdate
  have hnotdur : ¬ duration ≤ 0 := not_le.mpr hdur
  have hval : validate_job_data jobName startDate endDate 0 duration = [] := by
    simp [validate_job_data, hname, hnotle, hnotdur]
  refine ⟨hval, ?_, ?_, ?_⟩
  · simp [display_add_job_submit, hval, add_job_to_sheet]
  · intro cost
    by_cases hcost : cost < 0 <;>
      simp [validate_job_data, hname, hnotle, hnotdur, hcost]
  · intro project
    constructor <;> simp [main_add_job_submit]

/-- Claim C9 amended witness: the amended statements evaluated at name
Foundation Work, dates 2024-01-01 .. 2024-02-01, duration 30. -/
theorem zero_cost_amended_witness :
    validate_job_data "Foundation Work" ⟨2024, 1, 1⟩ ⟨2024, 2, 1⟩ 0 30 = [] ∧
    (display_add_job_submit [] "Foundation Work" ⟨2024, 1, 1⟩ ⟨2024, 2, 1⟩
        0 30 "Planned").sheet =
      [] ++ [jobRowData { jobName := pyStrip "Foundation Work",
                          startDate := ⟨2024, 1, 1⟩, endDate := ⟨2024, 2, 1⟩,
                          estimatedCost := 0, estimatedDuration := 30,
                          status := "Planned", project := none }] :=
  ⟨(zero_cost_amended [] "Foundation Work" ⟨2024, 1, 1⟩ ⟨2024, 2, 1⟩ 30
      "Planned" (by decide) (by decide) (by decide)).1,
   (zero_cost_amended [] "Foundation Work" ⟨2024, 1, 1⟩ ⟨2024, 2, 1⟩ 30
      "Planned" (by decide) (by decide) (by decide)).2.1⟩

/-- The row lookup of `display_job_management`:
`df.index[df['Job Name'] == job['Job Name']].tolist()[0]`, the index of the
first row of the full loaded table whose Job Name equals the given name. -/
def firstMatchIdx (name : String) : List Job → Option Nat
  | [] => none
  | j :: rest =>
      if j.jobName = name then some 0
      else (firstMatchIdx name rest).map (· + 1)

/-- The index translation of `update_job_in_sheet`: `actual_row = row_index + 2`
(one for the header row, one for 1-based sheet indexing). -/
def update_job_actual_row (rowIndex : Nat) : Nat := rowIndex + 2

/-- The index translation of `delete_job_from_sheet`: `actual_row = row_index + 2`. -/
def delete_job_actual_row (rowIndex : Nat) : Nat := rowIndex + 2

/-- Sheet row targeted by the edit path of `display_job_management`. -/
def editTargetRow (df : List Job) (name : String) : Option Nat :=
  (firstMatchIdx name df).map update_job_actual_row

/-- Sheet row targeted by the delete path of `display_job_management`. -/
def deleteTargetRow (df : List Job) (name : String) : Option Nat :=
  (firstMatchIdx name df).map delete_job_actual_row

/-- Claim C7: edit and delete resolve a displayed job to the store row of
the first row of the full loaded table whose Job Name matches, translated
by index + 2, and both paths use the same translation. -/
theorem row_identity_spec (df : List Job) (name : String) (i : Nat)
    (h : firstMatchIdx name df = some i) :
    (∃ hi : i < df.length, (df.get ⟨i, hi⟩).jobName = name) ∧
    (∀ k : Nat, ∀ hk : k < df.length, k < i → (df.get ⟨k, hk⟩).jobName ≠ name) ∧
    editTargetRow df name = some (i + 2) ∧
    deleteTargetRow df name = some (i + 2) := by
  induction df generalizing i with
  | nil => simp [firstMatchIdx] at h
  | cons j rest ih =>
    by_cases hj : j.jobName = name
    · have hi0 : i = 0 := by
        simp [firstMatchIdx, hj] at h
        omega
      subst hi0
      refine ⟨⟨Nat.succ_pos _, hj⟩, ?_, ?_, ?_⟩
      · intro k hk hk0
        omega
      · simp [editTargetRow, firstMatchIdx, hj, update_job_actual_row]
      · simp [deleteTargetRow, firstMatchIdx, hj, delete_job_actual_row]
    · have hstep : (firstMatchIdx name rest).map (· + 1) = some i := by
        rw [← h]
        simp [firstMatchIdx, hj]
      have hrest : ∃ i2, firstMatchIdx name rest = some i2 ∧ i = i2 + 1 := by
        rw [Option.map_eq_some'] at hstep
        obtain ⟨i2, h2, h3⟩ := hstep
        exact ⟨i2, h2, h3.symm⟩
      obtain ⟨i2, h2, rfl⟩ := hrest
      obtain ⟨⟨hi2, hget⟩, hfirst, _, _⟩ := ih i2 h2
      refine ⟨⟨by simpa using Nat.succ_lt_succ hi2, hget⟩, ?_, ?_, ?_⟩
      · intro k hk hklt
        cases k with
        | zero => exact hj
        | succ k2 =>
          have hk2 : k2 < rest.length := by simpa using hk
          exact hfirst k2 hk2 (by omega)
      · simp [editTargetRow, firstMatchIdx, hj, h2, update_job_actual_row]
      · simp [deleteTargetRow, firstMatchIdx, hj, h2, delete_job_actual_row]

/-- Claim C7 witness: on the concrete two-row table the name Foundation Work
resolves to in-memory index 1 and both edit and delete target sheet row 3. -/
theorem row_identity_spec_witness :
    editTargetRow [framingJob, sampleSpanJob] "Foundation Work" = some (1 + 2) ∧
    deleteTargetRow [framingJob, sampleSpanJob] "Foundation Work" = some (1 + 2) :=
  ⟨(row_identity_spec [framingJob, sampleSpanJob] "Foundation Work" 1
      (by decide)).2.2.1,
   (row_identity_spec [framingJob, sampleSpanJob] "Foundation Work" 1
      (by decide)).2.2.2⟩

/-- The cumulative spend of `test_budget_calculations` in run_demo.py:
`df[df['Start Date'] <= pd.Timestamp(month_end)]['Estimated Cost'].sum()`. -/
def spend_to_date (df : List Job) (d : Date) : ℚ :=
  ((df.filter (fun j => decide (j.startDate.code ≤ d.code))).map
    Job.estimatedCost).sum

theorem spend_to_date_cons (j : Job) (rest : List Job) (d : Date) :
    spend_to_date (j :: rest) d =
      (if j.startDate.code ≤ d.code then j.estimatedCost else 0) +
        spend_to_date rest d := by
  by_cases hc : j.startDate.code ≤ d.code <;>
    simp [spend_to_date, List.filter_cons, hc]

/-- Claim C8: with all estimated costs non-negative (the data model makes
them non-negative decimals) and a fixed table, spend-to-date is monotone in
the reference date: `d1 <= d2` implies
`spend_to_date df d1 <= spend_to_date df d2`. -/
theorem spend_to_date_monotone (df : List Job) (d1 d2 : Date)
    (hcost : ∀ j ∈ df, 0 ≤ j.estimatedCost) (hd : d1.code ≤ d2.code) :
    spend_to_date df d1 ≤ spend_to_date df d2 := by
  induction df with
  | nil => simp [spend_to_date]
  | cons j rest ih =>
    have hj : 0 ≤ j.estimatedCost := hcost j (List.mem_cons_self j rest)
    have hrest : ∀ x ∈ rest, 0 ≤ x.estimatedCost :=
      fun x hx => hcost x (List.mem_cons_of_mem j hx)
    have ihr := ih hrest
    rw [spend_to_date_cons, spend_to_date_cons]
    by_cases h1 : j.startDate.code ≤ d1.code
    · rw [if_pos h1, if_pos (le_trans h1 hd)]
      linarith
    · rw [if_neg h1]
      by_cases h2 : j.startDate.code ≤ d2.code
      · rw [if_pos h2]
        linarith
      · rw [if_neg h2]
        linarith

/-- Claim C8 witness: monotonicity evaluated on the concrete two-job table
between the ends of January and March 2024. -/
theorem spend_to_date_monotone_witness :
    spend_to_date [sampleSpanJob, framingJob] ⟨2024, 1, 31⟩ ≤
      spend_to_date [sampleSpanJob, framingJob] ⟨2024, 3, 31⟩ :=
  spend_to_date_monotone [sampleSpanJob, framingJob] ⟨2024, 1, 31⟩ ⟨2024, 3, 31⟩
    (by decide) (by decide)
